import Mathlib

set_option maxRecDepth 20000

/-!
# Verification of `build_icons.py` (Line Awesome icons JSON builder)

A shallow embedding of the classification/derivation core of
`src/build_icons.py`, together with theorems settling the spec's claims.

Embedding conventions:
* Python strings become `String`; character-level work happens on `String.data`
  (`List Char`).  All table data is ASCII, so Lean's ASCII-only
  `Char.toUpper`/`Char.toLower` coincide with Python's `str.capitalize`
  behaviour on this data.
* Python's `needle in hay` substring test is `strContains hay needle`.
* Python dict literals become association lists (`List (String × String)` or
  `List (String × List String)`) in source order; `dict[key]` lookup is
  `List.lookup`, and a `KeyError` becomes `none` (fallible code returns
  `Option`).
* `list(set(keywords))` has unspecified iteration order in Python; we model
  the set conversion with `List.dedup`, which preserves the deduplicated
  membership and nodup semantics that the program relies on.
* File I/O is out of scope: the pipeline `build_comprehensive_icon_list` takes
  the list of input lines (already stripped) as an argument and returns the
  assembled document instead of writing JSON.
-/

namespace BuildIcons

/-- Python's `needle in hay` substring containment, on character lists:
true iff `needle` occurs contiguously inside `hay`. -/
def isSubstrList (needle : List Char) : List Char → Bool
  | [] => needle.isEmpty
  | c :: rest => needle.isPrefixOf (c :: rest) || isSubstrList needle rest

/-- Python's `needle in hay` substring containment on strings. -/
def strContains (hay needle : String) : Bool :=
  isSubstrList needle.data hay.data

/-- Python's `s.endswith(suffix)`. -/
def strEndsWith (s suffix : String) : Bool :=
  suffix.data.isSuffixOf s.data

/-- Python's `s[:-2]`: drop the last two characters. -/
def dropLast2 (s : String) : String :=
  String.mk s.data.dropLast.dropLast

/-- Auxiliary splitter: returns the first piece (before the first separator)
and the list of remaining pieces. -/
def splitPiecesAux (p : Char → Bool) : List Char → List Char × List (List Char)
  | [] => ([], [])
  | a :: as =>
    if p a then ([], (splitPiecesAux p as).1 :: (splitPiecesAux p as).2)
    else (a :: (splitPiecesAux p as).1, (splitPiecesAux p as).2)

/-- Split a character list at every character satisfying `p`; separators are
dropped, empty pieces are kept (as Python's `str.split(sep)` does). The
result is always non-empty. -/
def splitPieces (p : Char → Bool) (l : List Char) : List (List Char) :=
  (splitPiecesAux p l).1 :: (splitPiecesAux p l).2

/-- Python's `name.split('-')`, as a list of strings. -/
def splitHyphens (name : String) : List String :=
  (splitPieces (fun c => c == '-') name.data).map String.mk

/-- Python's `name.replace('-', ' ').split()`: split on hyphens and
whitespace, dropping empty pieces (as no-argument `str.split()` does). -/
def pySplitWords (name : String) : List String :=
  ((splitPieces (fun c => c == '-' || c.isWhitespace) name.data).filter
      (fun piece => !piece.isEmpty)).map String.mk

/-- Python's `sep.join(words)`. -/
def joinWith (sep : String) : List String → String
  | [] => ""
  | [w] => w
  | w :: ws => w ++ sep ++ joinWith sep ws

/-- Python's `word.capitalize()`: first character uppercased, all remaining
characters lowercased (the data here is ASCII, where Lean's `Char.toUpper`
and `Char.toLower` agree with Python). -/
def pyCapitalize (w : String) : String :=
  match w.data with
  | [] => ""
  | c :: cs => String.mk (c.toUpper :: cs.map Char.toLower)

/-- Python's `tag.title()` restricted to its behaviour on this program's
category tags: the first character of every alphabetic run is uppercased and
the rest lowercased. -/
def pyTitle (s : String) : String :=
  String.mk (go false s.data)
where
  go : Bool → List Char → List Char
    | _, [] => []
    | prevAlpha, c :: cs =>
      if c.isAlpha then
        (if prevAlpha then c.toLower else c.toUpper) :: go true cs
      else
        c :: go false cs

/-- Member list of the "brand" category table (from `categorize_icon`). -/
def brand_icons : List String := [
  "500px", "accusoft", "adobe", "affiliatetheme", "airbnb", "algolia", "alipay", "amazon",
  "amazon-pay", "android", "angellist", "angrycreative", "angular", "app-store",
  "app-store-ios", "apper", "apple-pay", "artstation", "asymmetrik", "atlassian", "audible",
  "autoprefixer", "avianex", "aviato", "aws", "bandcamp", "battle-net", "behance",
  "behance-square", "bimobject", "bitbucket", "bitbucket-square", "bitcoin", "bity",
  "black-tie", "blackberry", "blogger", "blogger-b", "bootstrap", "btc", "buffer",
  "buromobelexperte", "buy-n-large", "buysellads", "centercode", "centos", "chrome",
  "chromecast", "cloudscale", "cloudsmith", "cloudversify", "codepen", "codiepie",
  "confluence", "connectdevelop", "contao", "cotton-bureau", "cpanel", "creative-commons",
  "critical-role", "css3", "css3-alt", "cuttlefish", "d-and-d", "d-and-d-beyond", "dashcube",
  "delicious", "deploydog", "deskpro", "dev", "deviantart", "digg", "digital-ocean", "discord",
  "discourse", "dochub", "docker", "draft2digital", "dribbble", "dribbble-square", "dropbox",
  "drupal", "dyalog", "earlybirds", "ebay", "edge", "elementor", "ello", "ember", "empire",
  "envira", "erlang", "ethereum", "etsy", "evernote", "expeditedssl", "facebook", "facebook-f",
  "facebook-messenger", "facebook-square", "fantasy-flight-games", "fedex", "fedora", "figma",
  "firefox", "first-order", "first-order-alt", "firstdraft", "flickr", "flipboard", "fly",
  "font-awesome", "font-awesome-alt", "font-awesome-flag", "fonticons", "fonticons-fi",
  "fort-awesome", "fort-awesome-alt", "forumbee", "foursquare", "free-code-camp", "freebsd",
  "fulcrum", "galactic-republic", "galactic-senate", "get-pocket", "gg", "gg-circle", "git",
  "git-alt", "git-square", "github", "github-alt", "github-square", "gitkraken", "gitlab",
  "gitter", "glide", "glide-g", "gofore", "goodreads", "goodreads-g", "google", "google-drive",
  "google-play", "google-plus", "google-plus-g", "google-plus-square", "google-wallet",
  "gratipay", "grav", "gripfire", "grunt", "gulp", "hacker-news", "hacker-news-square",
  "hackerrank", "hips", "hire-a-helper", "hooli", "hornbill", "hotjar", "houzz", "html5",
  "hubspot", "imdb", "instagram", "intercom", "internet-explorer", "invision", "ioxhost",
  "itch-io", "itunes", "java", "jenkins", "jira", "joget", "joomla", "js", "js-square",
  "jsfiddle", "kaggle", "keybase", "keycdn", "kickstarter", "kickstarter-k", "korvue",
  "laravel", "lastfm", "lastfm-square", "leanpub", "less", "line", "linkedin", "linkedin-in",
  "linkedin-square", "linode", "linux", "lyft", "magento", "mailchimp", "mandalorian",
  "markdown", "mastodon", "maxcdn", "mdb", "meanpath", "medapps", "medium", "medium-m",
  "medrt", "meetup", "megaport", "mendeley", "microsoft", "mix", "mixcloud", "mizuni", "modx",
  "monero", "napster", "neos", "nimblr", "node", "node-js", "npm", "ns8", "nutritionix",
  "odnoklassniki", "odnoklassniki-square", "old-republic", "opencart", "openid", "opera",
  "optin-monster", "orcid", "osi", "page4", "pagelines", "palfed", "patreon", "paypal",
  "penny-arcade", "periscope", "phabricator", "phoenix-framework", "phoenix-squadron", "php",
  "pied-piper", "pied-piper-alt", "pied-piper-hat", "pied-piper-pp", "pinterest",
  "pinterest-p", "pinterest-square", "playstation", "product-hunt", "pushed", "python", "qq",
  "quinscape", "quora", "r-project", "raspberry-pi", "ravelry", "react", "reacteurope",
  "readme", "rebel", "red-river", "reddit", "reddit-alien", "reddit-square", "redhat",
  "renren", "replyd", "researchgate", "resistance", "resolving", "rev", "rocketchat",
  "rockrms", "s15", "safari", "salesforce", "sass", "schlix", "scribd", "searchengin",
  "sellcast", "sellsy", "servicestack", "shirtsinbulk", "shopware", "simplybuilt", "sistrix",
  "sith", "sketch", "skyatlas", "skype", "slack", "slack-hash", "slideshare", "snapchat",
  "snapchat-ghost", "snapchat-square", "soundcloud", "sourcetree", "speakap", "speaker-deck",
  "spotify", "squarespace", "stack-exchange", "stack-overflow", "stackpath", "staylinked",
  "steam", "steam-square", "steam-symbol", "sticker-mule", "strava", "stripe", "stripe-s",
  "studiovinari", "stumbleupon", "stumbleupon-circle", "superpowers", "supple", "suse",
  "swift", "symfony", "teamspeak", "telegram", "telegram-plane", "tencent-weibo",
  "the-red-yeti", "themeco", "themeisle", "think-peaks", "trade-federation", "trello",
  "tripadvisor", "tumblr", "tumblr-square", "twitch", "twitter", "twitter-square", "typo3",
  "uber", "ubuntu", "uikit", "umbraco", "uniregistry", "untappd", "ups", "usps", "ussunnah",
  "vaadin", "viacoin", "viadeo", "viadeo-square", "viber", "vimeo", "vimeo-square", "vimeo-v",
  "vine", "vk", "vnv", "vuejs", "waze", "wechat", "weebly", "weibo", "weixin", "whatsapp",
  "whatsapp-square", "whmcs", "wikipedia-w", "windows", "wix", "wizards-of-the-coast",
  "wolf-pack-battalion", "wordpress", "wordpress-simple", "wpbeginner", "wpexplorer",
  "wpforms", "wpressr", "xbox", "xing", "xing-square", "y-combinator", "y-combinator-square",
  "yahoo", "yammer", "yandex", "yandex-international", "yarn", "yc", "yc-square", "yelp",
  "yoast", "youtube", "youtube-square", "zhihu"
]

/-- Member list of the "accessibility" category table (from `categorize_icon`). -/
def accessibility_icons : List String := [
  "accessible-icon", "american-sign-language-interpreting", "assistive-listening-systems",
  "audio-description", "blind", "braille", "deaf", "deafness", "hard-of-hearing", "low-vision",
  "sign-language", "universal-access", "wheelchair", "wheelchair-alt"
]

/-- Member list of the "arrows" category table (from `categorize_icon`). -/
def arrows_icons : List String := [
  "angle-double-down", "angle-double-left", "angle-double-right", "angle-double-up",
  "angle-down", "angle-left", "angle-right", "angle-up", "arrow-alt-circle-down",
  "arrow-alt-circle-left", "arrow-alt-circle-right", "arrow-alt-circle-up",
  "arrow-circle-down", "arrow-circle-left", "arrow-circle-right", "arrow-circle-up",
  "arrow-down", "arrow-left", "arrow-right", "arrow-up", "arrows", "arrows-alt",
  "arrows-alt-h", "arrows-alt-v", "arrows-h", "arrows-v", "caret-down", "caret-left",
  "caret-right", "caret-up", "chevron-circle-down", "chevron-circle-left",
  "chevron-circle-right", "chevron-circle-up", "chevron-down", "chevron-left", "chevron-right",
  "chevron-up", "compress", "compress-arrows-alt", "exchange", "exchange-alt", "expand",
  "expand-arrows-alt", "external-link", "external-link-alt", "external-link-square",
  "external-link-square-alt", "level-down", "level-down-alt", "level-up", "level-up-alt",
  "location-arrow", "long-arrow-alt-down", "long-arrow-alt-left", "long-arrow-alt-right",
  "long-arrow-alt-up", "long-arrow-down", "long-arrow-left", "long-arrow-right",
  "long-arrow-up", "random", "redo", "redo-alt", "reply", "reply-all", "retweet", "share",
  "share-alt", "share-alt-square", "share-square", "step-backward", "step-forward", "sync",
  "sync-alt", "undo", "undo-alt"
]

/-- Member list of the "medical" category table (from `categorize_icon`). -/
def medical_icons : List String := [
  "allergies", "ambulance", "band-aid", "briefcase-medical", "capsules", "clinic-medical",
  "comment-medical", "diagnoses", "dna", "file-medical", "file-medical-alt", "first-aid",
  "heartbeat", "hospital", "hospital-alt", "hospital-symbol", "laptop-medical", "medkit",
  "microscope", "notes-medical", "pills", "plus", "prescription", "prescription-bottle",
  "prescription-bottle-alt", "procedures", "stethoscope", "syringe", "tablets", "teeth",
  "teeth-open", "thermometer", "tooth", "user-md", "user-nurse", "vial", "vials", "x-ray"
]

/-- Member list of the "communication" category table (from `categorize_icon`). -/
def communication_icons : List String := [
  "address-book", "address-card", "at", "bell", "bell-slash", "bullhorn", "comment",
  "comment-alt", "comment-dots", "comment-slash", "commenting", "comments", "envelope",
  "envelope-open", "envelope-open-text", "envelope-square", "fax", "inbox", "language",
  "mail-bulk", "microphone", "microphone-alt", "microphone-alt-slash", "microphone-slash",
  "mobile", "mobile-alt", "phone", "phone-alt", "phone-slash", "phone-square",
  "phone-square-alt", "phone-volume", "rss", "rss-square", "satellite", "satellite-dish",
  "sms", "voicemail", "volume-down", "volume-mute", "volume-off", "volume-up", "wifi"
]

/-- Member list of the "files" category table (from `categorize_icon`). -/
def files_icons : List String := [
  "archive", "book", "book-dead", "book-medical", "book-open", "book-reader", "bookmark",
  "clipboard", "clipboard-check", "clipboard-list", "copy", "file", "file-alt", "file-archive",
  "file-audio", "file-code", "file-contract", "file-csv", "file-download", "file-excel",
  "file-export", "file-image", "file-import", "file-invoice", "file-invoice-dollar",
  "file-pdf", "file-powerpoint", "file-prescription", "file-signature", "file-text",
  "file-upload", "file-video", "file-word", "folder", "folder-minus", "folder-open",
  "folder-plus", "paste", "save", "scroll", "sticky-note"
]

/-- Member list of the "interface" category table (from `categorize_icon`). -/
def interface_icons : List String := [
  "adjust", "bars", "border-all", "border-none", "border-style", "cog", "cogs", "columns",
  "compress", "desktop", "download", "edit", "ellipsis-h", "ellipsis-v", "expand", "eye",
  "eye-slash", "filter", "grip-horizontal", "grip-lines", "grip-lines-vertical",
  "grip-vertical", "home", "i-cursor", "list", "list-alt", "list-ol", "list-ul", "lock",
  "lock-open", "menu", "minus", "minus-circle", "minus-square", "mouse-pointer", "navicon",
  "plus", "plus-circle", "plus-square", "power-off", "search", "search-minus", "search-plus",
  "server", "settings", "sliders", "sliders-h", "sort", "sort-down", "sort-up", "table",
  "tablet", "tablet-alt", "tasks", "th", "th-large", "th-list", "times", "times-circle",
  "toggle-off", "toggle-on", "tools", "trash", "trash-alt", "trash-restore",
  "trash-restore-alt", "unlock", "unlock-alt", "upload", "window-close", "window-maximize",
  "window-minimize", "window-restore"
]

/-- Member list of the "text" category table (from `categorize_icon`). -/
def text_icons : List String := [
  "align-center", "align-justify", "align-left", "align-right", "bold", "font", "heading",
  "highlighter", "italic", "paragraph", "quote-left", "quote-right", "strikethrough",
  "subscript", "superscript", "text-height", "text-width", "underline"
]

/-- Member list of the "emotions" category table (from `categorize_icon`). -/
def emotions_icons : List String := [
  "angry", "dizzy", "flushed", "frown", "frown-open", "grimace", "grin", "grin-alt",
  "grin-beam", "grin-beam-sweat", "grin-hearts", "grin-squint", "grin-squint-tears",
  "grin-stars", "grin-tears", "grin-tongue", "grin-tongue-squint", "grin-tongue-wink",
  "grin-wink", "kiss", "kiss-beam", "kiss-wink-heart", "laugh", "laugh-beam", "laugh-squint",
  "laugh-wink", "meh", "meh-blank", "meh-rolling-eyes", "sad-cry", "sad-tear", "smile",
  "smile-beam", "smile-wink", "surprise", "tired"
]

/-- Member list of the "transportation" category table (from `categorize_icon`). -/
def transportation_icons : List String := [
  "bicycle", "bus", "bus-alt", "car", "car-alt", "car-battery", "car-crash", "car-side",
  "motorcycle", "plane", "plane-arrival", "plane-departure", "ship", "shuttle-van", "subway",
  "taxi", "train", "tram", "truck", "truck-loading", "truck-monster", "truck-moving",
  "truck-pickup"
]

/-- Member list of the "food" category table (from `categorize_icon`). -/
def food_icons : List String := [
  "apple-alt", "bacon", "beer", "birthday-cake", "bread-slice", "candy-cane", "carrot",
  "cheese", "cocktail", "coffee", "cookie", "cookie-bite", "cutlery", "drumstick-bite", "egg",
  "hamburger", "hotdog", "ice-cream", "lemon", "pepper-hot", "pizza-slice", "utensil-spoon",
  "utensils", "wine-bottle", "wine-glass", "wine-glass-alt"
]

/-- Member list of the "science" category table (from `categorize_icon`). -/
def science_icons : List String := [
  "atom", "battery", "battery-empty", "battery-full", "battery-half", "battery-quarter",
  "battery-three-quarters", "beaker", "biohazard", "brain", "burn", "calculator", "cloud",
  "dna", "fire", "flask", "magnet", "microscope", "radiation", "radiation-alt", "rainbow",
  "seedling", "solar-panel", "temperature-high", "temperature-low"
]

/-- The `categories` dict of `categorize_icon`, as an association list in source (insertion) order. -/
def categories : List (String × List String) := [
  ("brand", brand_icons),
  ("accessibility", accessibility_icons),
  ("arrows", arrows_icons),
  ("medical", medical_icons),
  ("communication", communication_icons),
  ("files", files_icons),
  ("interface", interface_icons),
  ("text", text_icons),
  ("emotions", emotions_icons),
  ("transportation", transportation_icons),
  ("food", food_icons),
  ("science", science_icons)
]

/-- The `category_keywords` dict of `categorize_icon`. -/
def category_keywords : List (String × List String) := [
  ("accessibility", ["accessibility", "disabled", "universal", "access"]),
  ("arrows", ["arrow", "direction", "navigation", "movement"]),
  ("medical", ["medical", "health", "healthcare", "hospital"]),
  ("communication", ["communication", "contact", "message", "talk"]),
  ("files", ["file", "document", "storage", "data"]),
  ("interface", ["interface", "ui", "control", "button"]),
  ("text", ["text", "typography", "format", "writing"]),
  ("emotions", ["emotion", "face", "feeling", "expression"]),
  ("transportation", ["transport", "vehicle", "travel", "movement"]),
  ("food", ["food", "dining", "meal", "kitchen"]),
  ("science", ["science", "research", "laboratory", "technology"])
]

/-- The `brand_indicators` list of `determine_icon_type`. -/
def brand_indicators : List String := [
  "facebook", "twitter", "instagram", "youtube", "google", "apple", "microsoft", "amazon",
  "github", "linkedin", "pinterest", "reddit", "snapchat", "spotify", "netflix", "paypal",
  "visa", "mastercard", "bitcoin", "ethereum", "android", "windows", "adobe", "angular",
  "react", "vue", "node", "npm", "python", "php"
]

/-- The `regular_indicators` list of `determine_icon_type`. -/
def regular_indicators : List String := [
  "-o", "outline", "regular"
]

/-- The `special_cases` abbreviation/substitution dict of `create_display_name`. -/
def special_cases : List (String × String) := [
  ("alt", "Alternative"),
  ("o", ""),
  ("usa", "USA"),
  ("usd", "USD"),
  ("eur", "EUR"),
  ("gbp", "GBP"),
  ("jpy", "JPY"),
  ("krw", "KRW"),
  ("inr", "INR"),
  ("cny", "CNY"),
  ("btc", "BTC"),
  ("eth", "ETH"),
  ("id", "ID"),
  ("api", "API"),
  ("url", "URL"),
  ("html", "HTML"),
  ("css", "CSS"),
  ("js", "JavaScript"),
  ("php", "PHP"),
  ("sql", "SQL"),
  ("xml", "XML"),
  ("json", "JSON"),
  ("pdf", "PDF"),
  ("csv", "CSV"),
  ("rss", "RSS"),
  ("wifi", "WiFi"),
  ("usb", "USB"),
  ("gps", "GPS"),
  ("sms", "SMS"),
  ("ui", "UI"),
  ("ux", "UX"),
  ("seo", "SEO"),
  ("cms", "CMS"),
  ("crm", "CRM"),
  ("erp", "ERP"),
  ("aws", "AWS"),
  ("cdn", "CDN"),
  ("dns", "DNS"),
  ("vpn", "VPN"),
  ("ssh", "SSH"),
  ("ftp", "FTP"),
  ("http", "HTTP"),
  ("https", "HTTPS")
]

/-- The `category_descriptions` dict of `build_comprehensive_icon_list`. -/
def category_descriptions : List (String × String) := [
  ("accessibility", "Accessibility & Universal Access"),
  ("achievements", "Awards & Achievements"),
  ("arrows", "Arrows & Directions"),
  ("brand", "Brand & Social Media"),
  ("buildings", "Buildings & Architecture"),
  ("business", "Business & Commerce"),
  ("communication", "Communication & Contact"),
  ("emotions", "Emotions & Expressions"),
  ("files", "Files & Documents"),
  ("food", "Food & Dining"),
  ("geography", "Geography & Maps"),
  ("household", "Home & Household"),
  ("interface", "Interface & Controls"),
  ("maritime", "Maritime & Nautical"),
  ("medical", "Medical & Health"),
  ("misc", "Miscellaneous"),
  ("science", "Science & Research"),
  ("symbols", "Symbols & Signs"),
  ("text", "Text & Typography"),
  ("transportation", "Transportation & Vehicles")
]

/-! ## The classifier: `categorize_icon` -/

/-- The exact-membership scan of `categorize_icon`: the `for cat_name, icons
in categories.items()` loop with `break`, returning the first category whose
member list contains `icon_name` exactly. -/
def firstExactMatch (icon_name : String) : Option String :=
  categories.findSome? fun p => if p.2.contains icon_name then some p.1 else none

/-- The brand substring pre-seed test of `categorize_icon`:
`any(brand in icon_name for brand in categories['brand'])`. -/
def brandSubstrHit (icon_name : String) : Bool :=
  brand_icons.any fun brand => strContains icon_name brand

/-- `categorize_icon`: classify an icon name and generate its keywords.
Mirrors the source: brand substring pre-seed, exact-match category scan with
first-match-wins, hyphen-split word keywords, category boilerplate keywords,
set deduplication, and the `k and len(k) > 1` cleanup filter. -/
def categorize_icon (icon_name : String) : String × List String :=
  let seeded : String × List String :=
    if brandSubstrHit icon_name then
      ("brand", ["brand", "social", "platform", "service"])
    else
      ("misc", [])
  let category : String :=
    match firstExactMatch icon_name with
    | some cat_name => cat_name
    | none => seeded.1
  let keywords := seeded.2 ++ pySplitWords icon_name
  let keywords := keywords ++
    (match category_keywords.lookup category with
     | some ks => ks
     | none => [])
  let keywords := keywords.dedup
  (category, keywords.filter fun k => k != "" && decide (1 < k.length))

/-! ## The variant typer: `determine_icon_type` -/

/-- `determine_icon_type`: brand-indicator substring → "brand"; else
regular-indicator substring → "regular"; else "solid". -/
def determine_icon_type (icon_name : String) : String :=
  if brand_indicators.any (fun brand => strContains icon_name brand) then "brand"
  else if regular_indicators.any (fun indicator => strContains icon_name indicator) then "regular"
  else "solid"

/-! ## The class formatter: `get_css_class` -/

/-- The `prefix_map` dict of `get_css_class`. -/
def prefix_map : List (String × String) :=
  [("solid", "las"), ("regular", "lar"), ("brand", "lab")]

/-- `get_css_class`: `f"{prefix_map[icon_type]} la-{icon_name}"`.  The dict
lookup can raise `KeyError`, so the embedding returns `Option`: `none` is the
Python `KeyError`. -/
def get_css_class (icon_name icon_type : String) : Option String :=
  (prefix_map.lookup icon_type).map fun p => p ++ " la-" ++ icon_name

/-! ## The display-name formatter: `create_display_name` -/

/-- One iteration of the `for word in words` loop of `create_display_name`:
a key of `special_cases` is replaced by its value, with an empty value
dropping the word (`none`); any other word is capitalized. -/
def substituteWord (word : String) : Option String :=
  match special_cases.lookup word with
  | some v => if v = "" then none else some v
  | none => some (pyCapitalize word)

/-- The `processed_words` list of `create_display_name`. -/
def processedWords (icon_name : String) : List String :=
  (splitHyphens icon_name).filterMap substituteWord

/-- `create_display_name`: split on hyphens, substitute or capitalize each
word, join surviving words with single spaces. -/
def create_display_name (icon_name : String) : String :=
  joinWith " " (processedWords icon_name)

/-! ## The pipeline: `build_comprehensive_icon_list` -/

/-- One output record of the pipeline (a dict appended to `icons`). -/
structure IconRecord where
  name : String
  displayName : String
  cssClass : String
  iconType : String
  category : String
  keywords : List String
  deriving DecidableEq, Repr

/-- The loop body of `build_comprehensive_icon_list` for one (non-blank)
icon name: an identifier ending in "-o" expands into the regular/solid pair
with hardcoded "lar la-"/"las la-" classes; any other identifier yields one
record through `get_css_class`.  `none` models an uncaught `KeyError`. -/
def process_icon (icon_name : String) : Option (List IconRecord) :=
  let catkw := categorize_icon icon_name
  let icon_type := determine_icon_type icon_name
  if strEndsWith icon_name "-o" then
    let base_name := dropLast2 icon_name
    some
      [{ name := base_name
         displayName := create_display_name base_name
         cssClass := "lar la-" ++ base_name
         iconType := "regular"
         category := catkw.1
         keywords := catkw.2 },
       { name := base_name
         displayName := create_display_name base_name
         cssClass := "las la-" ++ base_name
         iconType := "solid"
         category := catkw.1
         keywords := catkw.2 }]
  else
    (get_css_class icon_name icon_type).map fun css =>
      [{ name := icon_name
         displayName := create_display_name icon_name
         cssClass := css
         iconType := icon_type
         category := catkw.1
         keywords := catkw.2 }]

/-- The record-building loop of `build_comprehensive_icon_list` over the
input lines, skipping blank names (`if not icon_name: continue`). -/
def buildIcons : List String → Option (List IconRecord)
  | [] => some []
  | n :: ns =>
    if n = "" then buildIcons ns
    else do
      let rs ← process_icon n
      let rest ← buildIcons ns
      pure (rs ++ rest)

/-- The `categories_used` set accumulated by the loop, as a deduplicated
list (one entry per non-blank input name's resolved category). -/
def categoriesUsed (icon_names : List String) : List String :=
  ((icon_names.filter fun n => n != "").map fun n => (categorize_icon n).1).dedup

/-- Sorted insertion for `sorted(categories_used)`. -/
def insertSorted (a : String) : List String → List String
  | [] => [a]
  | b :: bs => if a < b then a :: b :: bs else b :: insertSorted a bs

/-- Python's `sorted` on a list of strings (insertion sort; Python string
comparison and Lean's `String` order are both lexicographic by code point). -/
def sortStrings (l : List String) : List String :=
  l.foldr insertSorted []

/-- The assembled output document (JSON serialization is out of scope; the
static metadata strings are omitted, the computed fields are kept). -/
structure CatalogDocument where
  totalIcons : Nat
  metadataCategories : List String
  iconTypes : List String
  icons : List IconRecord
  categories : List (String × String)
  deriving DecidableEq, Repr

/-- `build_comprehensive_icon_list`, from the list of input lines to the
final document: builds the record list, then the metadata counts and the
`categories` mapping — `{cat: category_descriptions.get(cat, cat.title())
for cat in sorted(categories_used)}` as an association list in sorted key
order. -/
def build_comprehensive_icon_list (icon_names : List String) :
    Option CatalogDocument :=
  (buildIcons icon_names).map fun icons =>
    { totalIcons := icons.length
      metadataCategories := categoriesUsed icon_names
      iconTypes := ["solid", "regular", "brand"]
      icons := icons
      categories := (sortStrings (categoriesUsed icon_names)).map fun cat =>
        (cat, (category_descriptions.lookup cat).getD (pyTitle cat)) }


/-- The document the pipeline assembles for the single input line "user"
(used to witness the categories-mapping claim). -/
def userDoc : CatalogDocument :=
  { totalIcons := 1
    metadataCategories := ["misc"]
    iconTypes := ["solid", "regular", "brand"]
    icons := [{ name := "user", displayName := "User", cssClass := "las la-user",
                iconType := "solid", category := "misc", keywords := ["user"] }]
    categories := [("misc", "Miscellaneous")] }

/-! ## Claim-side definitions -/

/-- The identifier rewritten as the outline-drop claim describes it: the
hyphen-split segments whose `special_cases` substitution is the empty string
are removed, and the remaining segments are re-joined with hyphens. -/
def dropEmptySubstSegments (icon_name : String) : String :=
  joinWith "-" ((splitHyphens icon_name).filter fun w =>
    !(special_cases.lookup w == some ""))


/-! ## Helper lemmas -/

lemma mk_data (s : String) : String.mk s.data = s := by
  cases s
  rfl

lemma data_append (s t : String) : (s ++ t).data = s.data ++ t.data := by
  cases s
  cases t
  rfl

lemma lookup_mem {α β : Type} [BEq α] [LawfulBEq α] {l : List (α × β)} {a : α}
    {b : β} (h : l.lookup a = some b) : (a, b) ∈ l := by
  obtain ⟨l₁, l₂, rfl, -⟩ := List.lookup_eq_some_iff.mp h
  simp

lemma get_css_class_solid (n : String) :
    get_css_class n "solid" = some ("las la-" ++ n) := rfl

lemma get_css_class_regular (n : String) :
    get_css_class n "regular" = some ("lar la-" ++ n) := rfl

lemma get_css_class_brand (n : String) :
    get_css_class n "brand" = some ("lab la-" ++ n) := rfl

lemma lookup_prefix_map_eq_none {t : String} (h1 : t ≠ "solid")
    (h2 : t ≠ "regular") (h3 : t ≠ "brand") : prefix_map.lookup t = none := by
  have e1 : (t == "solid") = false := by simp [h1]
  have e2 : (t == "regular") = false := by simp [h2]
  have e3 : (t == "brand") = false := by simp [h3]
  simp [prefix_map, List.lookup_cons, e1, e2, e3]

/-! ## C1: shape of the stylesheet class string -/

/-- **C1 counterexample.**  The claim states that `get_css_class` returns
`"<prefix> <prefix>-<baseName>"`, with the variant prefix repeated in the
second token.  At `baseName = "user"`, `iconType = "solid"` the code returns
`"las la-user"`, not `"las las-user"`: the second token always carries the
fixed `la` prefix. -/
theorem c1_counterexample :
    get_css_class "user" "solid" = some "las la-user" ∧
      "las la-user" ≠ "las las-user" :=
  ⟨rfl, by decide⟩

/-- **C1 (amended).**  For every `baseName` and every `iconType` in
{"solid", "regular", "brand"}, `get_css_class` returns the two-token string
`"<prefix> la-<baseName>"`: the first token is the prefix the 3-entry table
assigns to `iconType`, and the second token is `la-` followed by the base
name — the fixed `la` prefix, not the variant prefix, appears in the second
token. -/
theorem c1_css_class_shape (baseName : String) :
    get_css_class baseName "solid" = some ("las" ++ " " ++ "la-" ++ baseName) ∧
    get_css_class baseName "regular" = some ("lar" ++ " " ++ "la-" ++ baseName) ∧
    get_css_class baseName "brand" = some ("lab" ++ " " ++ "la-" ++ baseName) :=
  ⟨rfl, rfl, rfl⟩

/-! ## C7: the class formatter succeeds exactly on the three known types -/

/-- **C7.**  `get_css_class` succeeds on the three known `iconType` values
and fails with a lookup miss (`none`, the Python `KeyError`) on every other
value, rather than defaulting to any prefix. -/
theorem c7_css_class_domain (icon_name icon_type : String) :
    ((icon_type = "solid" ∨ icon_type = "regular" ∨ icon_type = "brand") →
      ∃ s, get_css_class icon_name icon_type = some s) ∧
    (icon_type ≠ "solid" → icon_type ≠ "regular" → icon_type ≠ "brand" →
      get_css_class icon_name icon_type = none) := by
  constructor
  · rintro (rfl | rfl | rfl)
    · exact ⟨_, get_css_class_solid icon_name⟩
    · exact ⟨_, get_css_class_regular icon_name⟩
    · exact ⟨_, get_css_class_brand icon_name⟩
  · intro h1 h2 h3
    unfold get_css_class
    rw [lookup_prefix_map_eq_none h1 h2 h3]
    rfl

/-- **C7 witness.**  Concrete instances of both halves of C7: the known type
"solid" succeeds and the unknown type "duotone" yields the lookup miss. -/
theorem c7_witness :
    (∃ s, get_css_class "icons" "solid" = some s) ∧
      get_css_class "icons" "duotone" = none :=
  ⟨(c7_css_class_domain "icons" "solid").1 (Or.inl rfl),
    (c7_css_class_domain "icons" "duotone").2 (by decide) (by decide) (by decide)⟩

/-! ## C4: idempotence of the display-name formatter on expanded values -/

/-- **C4 counterexample.**  The claim states that for every key of
`special_cases` with a non-empty value, applying `create_display_name` to
that value returns it unchanged.  This fails at the key "usa" with value
"USA": the value matches no key, so it is re-capitalized, and Python's
`capitalize` lowercases everything after the first character, giving "Usa". -/
theorem c4_counterexample :
    ("usa", "USA") ∈ special_cases ∧ "USA" ≠ "" ∧
      create_display_name "USA" = "Usa" ∧ "Usa" ≠ "USA" :=
  ⟨by decide, by decide, rfl, by decide⟩

/-- **C4 (amended).**  For every key of `special_cases` whose value is
non-empty, the value matches no key of the table (so no double substitution
occurs), and applying `create_display_name` to the value yields its
Python-capitalization — first character uppercased, the rest lowercased.
The result equals the value itself only when the value is already in that
form (as "Alternative" is), not for acronym values such as "USA". -/
theorem c4_no_double_substitution :
    ∀ p ∈ special_cases, p.2 ≠ "" →
      special_cases.lookup p.2 = none ∧
        create_display_name p.2 = pyCapitalize p.2 := by
  decide

/-- **C4 witness.**  C4 applied to the entry `("alt", "Alternative")`:
"Alternative" is not re-substituted and keeps its capitalized form. -/
theorem c4_witness :
    special_cases.lookup "Alternative" = none ∧
      create_display_name "Alternative" = pyCapitalize "Alternative" :=
  c4_no_double_substitution ("alt", "Alternative") (by decide) (by decide)


/-! ## Pipeline helper lemmas -/

lemma determine_icon_type_cases (n : String) :
    determine_icon_type n = "brand" ∨ determine_icon_type n = "regular" ∨
      determine_icon_type n = "solid" := by
  unfold determine_icon_type
  split
  · exact Or.inl rfl
  · split
    · exact Or.inr (Or.inl rfl)
    · exact Or.inr (Or.inr rfl)

lemma process_icon_suffix (name : String) (h : strEndsWith name "-o" = true) :
    process_icon name = some
      [{ name := dropLast2 name
         displayName := create_display_name (dropLast2 name)
         cssClass := "lar la-" ++ dropLast2 name
         iconType := "regular"
         category := (categorize_icon name).1
         keywords := (categorize_icon name).2 },
       { name := dropLast2 name
         displayName := create_display_name (dropLast2 name)
         cssClass := "las la-" ++ dropLast2 name
         iconType := "solid"
         category := (categorize_icon name).1
         keywords := (categorize_icon name).2 }] := by
  simp [process_icon, h]

lemma categorize_icon_fst (n : String) :
    (categorize_icon n).1 =
      match firstExactMatch n with
      | some c => c
      | none => if brandSubstrHit n then "brand" else "misc" := by
  by_cases hb : brandSubstrHit n <;> cases hf : firstExactMatch n <;>
    simp [categorize_icon, hb, hf]

/-! ## C2: outline-suffix identifiers expand into a regular/solid pair -/

/-- **C2.**  For every identifier ending in "-o", the pipeline's loop body
produces exactly two adjacent records, the "regular" one first and the
"solid" one second; both carry the identifier with its final two characters
stripped as `name`, the same `displayName`, `category` and `keywords`, and
their class strings differ only in the variant prefix token
("lar" versus "las"). -/
theorem c2_outline_pair (name : String) (h : strEndsWith name "-o" = true) :
    ∃ r1 r2, process_icon name = some [r1, r2] ∧
      r1.iconType = "regular" ∧ r2.iconType = "solid" ∧
      r1.name = dropLast2 name ∧ r2.name = dropLast2 name ∧
      r1.displayName = r2.displayName ∧
      r1.category = r2.category ∧ r1.keywords = r2.keywords ∧
      r1.cssClass = "lar la-" ++ dropLast2 name ∧
      r2.cssClass = "las la-" ++ dropLast2 name :=
  ⟨_, _, process_icon_suffix name h, rfl, rfl, rfl, rfl, rfl, rfl, rfl, rfl, rfl⟩

/-- **C2 witness.**  C2 at the identifier "heart-o". -/
theorem c2_witness :
    ∃ r1 r2, process_icon "heart-o" = some [r1, r2] ∧
      r1.iconType = "regular" ∧ r2.iconType = "solid" ∧
      r1.name = "heart" ∧ r2.name = "heart" ∧
      r1.displayName = r2.displayName ∧
      r1.category = r2.category ∧ r1.keywords = r2.keywords ∧
      r1.cssClass = "lar la-heart" ∧ r2.cssClass = "las la-heart" :=
  c2_outline_pair "heart-o" rfl

/-! ## C5: identifiers without the outline suffix yield one typed record -/

/-- **C5.**  For every identifier not ending in "-o", the pipeline's loop
body produces exactly one record whose `name` is the identifier unchanged
and whose `iconType` is "brand" when a brand-indicator substring occurs in
the identifier, otherwise "regular" when an outline-indicator substring
("-o", "outline" or "regular") occurs, otherwise "solid". -/
theorem c5_single_record (name : String) (h : strEndsWith name "-o" = false) :
    ∃ r, process_icon name = some [r] ∧ r.name = name ∧
      r.iconType =
        (if brand_indicators.any (fun brand => strContains name brand) then "brand"
         else if regular_indicators.any (fun indicator => strContains name indicator) then
           "regular"
         else "solid") := by
  have hd : determine_icon_type name =
      (if brand_indicators.any (fun brand => strContains name brand) then "brand"
       else if regular_indicators.any (fun indicator => strContains name indicator) then
         "regular"
       else "solid") := rfl
  rw [← hd]
  rcases determine_icon_type_cases name with ht | ht | ht
  · refine ⟨{ name := name, displayName := create_display_name name,
               cssClass := "lab la-" ++ name, iconType := "brand",
               category := (categorize_icon name).1,
               keywords := (categorize_icon name).2 }, ?_, rfl, ht.symm⟩
    simp [process_icon, h, ht, get_css_class_brand]
  · refine ⟨{ name := name, displayName := create_display_name name,
               cssClass := "lar la-" ++ name, iconType := "regular",
               category := (categorize_icon name).1,
               keywords := (categorize_icon name).2 }, ?_, rfl, ht.symm⟩
    simp [process_icon, h, ht, get_css_class_regular]
  · refine ⟨{ name := name, displayName := create_display_name name,
               cssClass := "las la-" ++ name, iconType := "solid",
               category := (categorize_icon name).1,
               keywords := (categorize_icon name).2 }, ?_, rfl, ht.symm⟩
    simp [process_icon, h, ht, get_css_class_solid]

/-- **C5 witness.**  C5 at the identifier "user": one record, name kept,
type "solid". -/
theorem c5_witness :
    ∃ r, process_icon "user" = some [r] ∧ r.name = "user" ∧
      r.iconType = "solid" :=
  c5_single_record "user" rfl

/-! ## C10: suffixed identifiers are classified on the full suffixed form -/

/-- **C10.**  For every identifier ending in "-o", both emitted records
carry the category and keywords computed by `categorize_icon` on the full
suffixed identifier; consequently, when no brand substring occurs in the
suffixed form and no category table contains it exactly, both records are
categorized "misc", even when the stripped base name is an exact member of
some category table (whose category the classifier would return for the
base name). -/
theorem c10_category_from_suffixed (name : String)
    (h : strEndsWith name "-o" = true) :
    (∃ r1 r2, process_icon name = some [r1, r2] ∧
      r1.category = (categorize_icon name).1 ∧
      r2.category = (categorize_icon name).1 ∧
      r1.keywords = (categorize_icon name).2 ∧
      r2.keywords = (categorize_icon name).2) ∧
    (∀ c, brandSubstrHit name = false → firstExactMatch name = none →
      firstExactMatch (dropLast2 name) = some c →
      (categorize_icon name).1 = "misc" ∧
        (categorize_icon (dropLast2 name)).1 = c) := by
  constructor
  · exact ⟨_, _, process_icon_suffix name h, rfl, rfl, rfl, rfl⟩
  · intro c h1 h2 h3
    constructor
    · rw [categorize_icon_fst, h2, h1]
      simp
    · rw [categorize_icon_fst, h3]

/-- **C10 witness.**  C10 at "bold-o": the base name "bold" is an exact
member of the "text" table, but the suffixed form matches no table and no
brand substring, so the full identifier — and hence both records — get
category "misc". -/
theorem c10_witness :
    (categorize_icon "bold-o").1 = "misc" ∧ (categorize_icon "bold").1 = "text" :=
  (c10_category_from_suffixed "bold-o" rfl).2 "text" rfl rfl rfl


/-! ## C3: classifier precedence -/

lemma firstExactMatch_ne_brand {n c : String}
    (hb : brand_icons.contains n = false) (h : firstExactMatch n = some c) :
    c ≠ "brand" := by
  unfold firstExactMatch categories at h
  rw [List.findSome?_cons] at h
  simp only [hb, Bool.false_eq_true, if_false] at h
  obtain ⟨p, hp, hf⟩ := List.exists_of_findSome?_eq_some h
  have hc : c = p.1 := by
    split at hf
    · exact (Option.some.inj hf).symm
    · cases hf
  subst hc
  simp only [List.mem_cons, List.not_mem_nil, or_false] at hp
  rcases hp with rfl | rfl | rfl | rfl | rfl | rfl | rfl | rfl | rfl | rfl | rfl <;>
    decide

/-- **C3.**  The classifier resolves the category exactly as claimed: the
first category table containing the identifier as an exact member wins,
falling back to the brand pre-seed ("brand" on a brand substring hit, else
"misc") only when no table matches.  In particular, an identifier that hits
a brand substring but is an exact member of some table — and not of the
brand table — receives that table's (non-brand) category: the exact match
overrides the brand pre-seed. -/
theorem c3_category_resolution (name : String) :
    ((categorize_icon name).1 =
      match firstExactMatch name with
      | some c => c
      | none => if brandSubstrHit name then "brand" else "misc") ∧
    (∀ c, brandSubstrHit name = true → brand_icons.contains name = false →
      firstExactMatch name = some c →
      (categorize_icon name).1 = c ∧ c ≠ "brand") := by
  refine ⟨categorize_icon_fst name, ?_⟩
  intro c hseed hmem hfm
  exact ⟨by rw [categorize_icon_fst, hfm], firstExactMatch_ne_brand hmem hfm⟩

/-- **C3 witness.**  C3 at "underline": the brand entry "line" occurs as a
substring (pre-seeding "brand"), yet "underline" is an exact member of the
"text" table and of no earlier table, so the final category is "text". -/
theorem c3_witness :
    (categorize_icon "underline").1 = "text" ∧ "text" ≠ "brand" :=
  (c3_category_resolution "underline").2 "text" rfl rfl rfl


/-! ## C6: keyword-set properties -/

lemma categorize_icon_snd (n : String) :
    (categorize_icon n).2 =
      (((if brandSubstrHit n then ["brand", "social", "platform", "service"]
          else []) ++ pySplitWords n ++
        (match category_keywords.lookup (categorize_icon n).1 with
         | some ks => ks
         | none => [])).dedup).filter
        (fun k => k != "" && decide (1 < k.length)) := by
  by_cases hb : brandSubstrHit n <;> simp [categorize_icon, hb]

lemma category_keywords_long :
    ∀ p ∈ category_keywords, ∀ b ∈ p.2, b ≠ "" ∧ 1 < b.length := by
  decide

/-- **C6 counterexample.**  The claim states the keyword set contains the
brand seed terms exactly when the identifier has a brand-list substring.
The "only when" direction fails: for the identifier
"brand-social-platform-service", which contains no brand-list entry as a
substring, all four seed terms nevertheless appear — they arrive as the
identifier's own hyphen-split segments. -/
theorem c6_counterexample :
    (categorize_icon "brand-social-platform-service").2 =
        ["brand", "social", "platform", "service"] ∧
      brandSubstrHit "brand-social-platform-service" = false :=
  ⟨rfl, rfl⟩

/-- **C6 (amended).**  For every identifier, the keyword set contains no
empty string and no length-1 token, contains every hyphen-split segment of
length above 1, contains the four brand seed terms whenever (but not only
when) the identifier contains a brand-list entry as a substring, contains
the registered boilerplate terms of the final resolved category, and has no
duplicates. -/
theorem c6_keyword_properties (name : String) :
    (∀ k ∈ (categorize_icon name).2, k ≠ "" ∧ 1 < k.length) ∧
    (∀ w ∈ pySplitWords name, 1 < w.length → w ∈ (categorize_icon name).2) ∧
    (brandSubstrHit name = true →
      ∀ k ∈ (["brand", "social", "platform", "service"] : List String),
        k ∈ (categorize_icon name).2) ∧
    (∀ ks, category_keywords.lookup (categorize_icon name).1 = some ks →
      ∀ b ∈ ks, b ∈ (categorize_icon name).2) ∧
    ((categorize_icon name).2).Nodup := by
  refine ⟨?_, ?_, ?_, ?_, ?_⟩
  · intro k hk
    rw [categorize_icon_snd] at hk
    have h := (List.mem_filter.mp hk).2
    simpa [Bool.and_eq_true, bne_iff_ne, decide_eq_true_eq] using h
  · intro w hw hlen
    have hne : w ≠ "" := by
      rintro rfl
      exact absurd hlen (by decide)
    rw [categorize_icon_snd]
    refine List.mem_filter.mpr ⟨List.mem_dedup.mpr ?_, ?_⟩
    · exact List.mem_append_left _ (List.mem_append_right _ hw)
    · simp [bne_iff_ne, hne, hlen]
  · intro hb k hk
    have hlong : k ≠ "" ∧ 1 < k.length := by
      simp only [List.mem_cons, List.not_mem_nil, or_false] at hk
      rcases hk with rfl | rfl | rfl | rfl <;> decide
    rw [categorize_icon_snd]
    refine List.mem_filter.mpr ⟨List.mem_dedup.mpr ?_, ?_⟩
    · refine List.mem_append_left _ (List.mem_append_left _ ?_)
      simp only [hb, if_true]
      exact hk
    · simp [bne_iff_ne, hlong.1, hlong.2]
  · intro ks hks b hbks
    have hlong := category_keywords_long _ (lookup_mem hks) b hbks
    rw [categorize_icon_snd]
    refine List.mem_filter.mpr ⟨List.mem_dedup.mpr ?_, ?_⟩
    · refine List.mem_append_right _ ?_
      rw [hks]
      exact hbks
    · simp [bne_iff_ne, hlong.1, hlong.2]
  · rw [categorize_icon_snd]
    exact (List.nodup_dedup _).filter _

/-- **C6 witness.**  C6 applied at "underline": its own segment, a brand
seed term (the brand entry "line" occurs as a substring), and a "text"
boilerplate term all appear among its keywords. -/
theorem c6_witness :
    "underline" ∈ (categorize_icon "underline").2 ∧
      "social" ∈ (categorize_icon "underline").2 ∧
      "typography" ∈ (categorize_icon "underline").2 :=
  ⟨(c6_keyword_properties "underline").2.1 "underline" (by decide) (by decide),
   (c6_keyword_properties "underline").2.2.1 rfl "social" (by decide),
   (c6_keyword_properties "underline").2.2.2.1
     ["text", "typography", "format", "writing"] rfl "typography" (by decide)⟩


/-! ## C8: the categories mapping covers exactly the used categories -/

lemma mem_insertSorted {b a : String} :
    ∀ {l : List String}, b ∈ insertSorted a l ↔ b = a ∨ b ∈ l
  | [] => by simp [insertSorted]
  | c :: cs => by
    unfold insertSorted
    split
    · simp [List.mem_cons]
    · rw [List.mem_cons, mem_insertSorted (l := cs), List.mem_cons]
      tauto

lemma mem_sortStrings {a : String} :
    ∀ {l : List String}, a ∈ sortStrings l ↔ a ∈ l
  | [] => Iff.rfl
  | b :: bs => by
    show a ∈ insertSorted b (sortStrings bs) ↔ _
    rw [mem_insertSorted, mem_sortStrings (l := bs), List.mem_cons]

lemma process_icon_nosuffix (n : String) (h : strEndsWith n "-o" = false) :
    ∃ css, process_icon n = some
      [{ name := n
         displayName := create_display_name n
         cssClass := css
         iconType := determine_icon_type n
         category := (categorize_icon n).1
         keywords := (categorize_icon n).2 }] := by
  rcases determine_icon_type_cases n with ht | ht | ht
  · exact ⟨"lab la-" ++ n, by simp [process_icon, h, ht, get_css_class_brand]⟩
  · exact ⟨"lar la-" ++ n, by simp [process_icon, h, ht, get_css_class_regular]⟩
  · exact ⟨"las la-" ++ n, by simp [process_icon, h, ht, get_css_class_solid]⟩

lemma process_icon_spec (n : String) :
    ∃ rs, process_icon n = some rs ∧ rs ≠ [] ∧
      ∀ r ∈ rs, r.category = (categorize_icon n).1 := by
  by_cases h : strEndsWith n "-o" = true
  · refine ⟨_, process_icon_suffix n h, by simp, ?_⟩
    intro r hr
    simp only [List.mem_cons, List.not_mem_nil, or_false] at hr
    rcases hr with rfl | rfl <;> rfl
  · have h' : strEndsWith n "-o" = false := by simpa using h
    obtain ⟨css, hcss⟩ := process_icon_nosuffix n h'
    refine ⟨_, hcss, by simp, ?_⟩
    intro r hr
    simp only [List.mem_cons, List.not_mem_nil, or_false] at hr
    rcases hr with rfl
    rfl

lemma buildIcons_spec (ns : List String) :
    ∃ l, buildIcons ns = some l ∧
      ∀ c, (c ∈ l.map IconRecord.category ↔
        c ∈ (ns.filter fun n => n != "").map fun n => (categorize_icon n).1) := by
  induction ns with
  | nil => exact ⟨[], rfl, by simp⟩
  | cons n ns ih =>
    obtain ⟨l, hl, hmem⟩ := ih
    by_cases hn : n = ""
    · subst hn
      refine ⟨l, by simpa [buildIcons] using hl, ?_⟩
      intro c
      simpa using hmem c
    · obtain ⟨rs, hrs, hne, hcat⟩ := process_icon_spec n
      refine ⟨rs ++ l, by simp [buildIcons, hn, hrs, hl], ?_⟩
      intro c
      have hfilter : ((n :: ns).filter fun m => m != "") =
          n :: (ns.filter fun m => m != "") := by
        simp [List.filter_cons, hn]
      rw [hfilter]
      simp only [List.map_append, List.map_cons, List.mem_append, List.mem_cons]
      constructor
      · rintro (hc | hc)
        · obtain ⟨r, hr, rfl⟩ := List.mem_map.mp hc
          exact Or.inl (hcat r hr)
        · exact Or.inr ((hmem c).mp hc)
      · rintro (rfl | hc)
        · obtain ⟨r₀, hr₀⟩ := List.exists_mem_of_ne_nil rs hne
          exact Or.inl (List.mem_map.mpr ⟨r₀, hr₀, hcat r₀ hr₀⟩)
        · exact Or.inr ((hmem c).mpr hc)

/-- **C8.**  For every input list, the keys of the final document's
`categories` mapping are exactly the categories appearing among the produced
records: each record's category is a key, and no unused key occurs (an empty
input therefore yields an empty mapping). -/
theorem c8_categories_mapping (icon_names : List String)
    (doc : CatalogDocument)
    (h : build_comprehensive_icon_list icon_names = some doc) :
    ∀ c, c ∈ doc.categories.map Prod.fst ↔ c ∈ doc.icons.map IconRecord.category := by
  obtain ⟨l, hl, hmem⟩ := buildIcons_spec icon_names
  unfold build_comprehensive_icon_list at h
  rw [hl] at h
  simp only [Option.map] at h
  have hdoc := Option.some.inj h
  subst hdoc
  intro c
  rw [List.map_map]
  have hfst : (Prod.fst ∘ fun cat =>
      (cat, (category_descriptions.lookup cat).getD (pyTitle cat))) = id := rfl
  rw [hfst, List.map_id, mem_sortStrings]
  unfold categoriesUsed
  rw [List.mem_dedup]
  exact (hmem c).symm

/-- **C8 witness.**  C8 at the one-line input ["user"], whose document has
the single record category "misc" and the single mapping key "misc". -/
theorem c8_witness :
    "misc" ∈ userDoc.categories.map Prod.fst ↔
      "misc" ∈ userDoc.icons.map IconRecord.category :=
  c8_categories_mapping ["user"] userDoc (by rfl) "misc"


/-! ## C9: empty substitutions drop the segment at any position -/

lemma splitPiecesAux_no_sep {p : Char → Bool} :
    ∀ {s : List Char}, (∀ c ∈ s, p c = false) → splitPiecesAux p s = (s, [])
  | [], _ => rfl
  | a :: as, h => by
    have ha : p a = false := h a (List.mem_cons_self a as)
    have ih := splitPiecesAux_no_sep (s := as)
      (fun c hc => h c (List.mem_cons_of_mem a hc))
    simp [splitPiecesAux, ha, ih]

lemma splitPieces_no_sep {p : Char → Bool} {s : List Char}
    (h : ∀ c ∈ s, p c = false) : splitPieces p s = [s] := by
  unfold splitPieces
  rw [splitPiecesAux_no_sep h]

lemma splitPiecesAux_append_sep {p : Char → Bool} {sep : Char}
    (hp : p sep = true) :
    ∀ {s t : List Char}, (∀ c ∈ s, p c = false) →
      splitPiecesAux p (s ++ sep :: t) =
        (s, (splitPiecesAux p t).1 :: (splitPiecesAux p t).2)
  | [], t, _ => by simp [splitPiecesAux, hp]
  | a :: as, t, h => by
    have ha : p a = false := h a (List.mem_cons_self a as)
    have ih := splitPiecesAux_append_sep hp (s := as) (t := t)
      (fun c hc => h c (List.mem_cons_of_mem a hc))
    simp [splitPiecesAux, ha, ih]

lemma splitPieces_append_sep {p : Char → Bool} {sep : Char} {s t : List Char}
    (hp : p sep = true) (h : ∀ c ∈ s, p c = false) :
    splitPieces p (s ++ sep :: t) = s :: splitPieces p t := by
  unfold splitPieces
  rw [splitPiecesAux_append_sep hp h]

lemma splitPiecesAux_sep_free (p : Char → Bool) :
    ∀ l : List Char,
      (∀ c ∈ (splitPiecesAux p l).1, p c = false) ∧
      (∀ piece ∈ (splitPiecesAux p l).2, ∀ c ∈ piece, p c = false)
  | [] => ⟨by simp [splitPiecesAux], by simp [splitPiecesAux]⟩
  | a :: as => by
    obtain ⟨ih1, ih2⟩ := splitPiecesAux_sep_free p as
    cases hpa : p a with
    | true =>
      constructor
      · intro c hc
        simp [splitPiecesAux, hpa] at hc
      · intro piece hpiece
        simp only [splitPiecesAux, hpa, if_true] at hpiece
        rcases List.mem_cons.mp hpiece with rfl | hmem
        · exact ih1
        · exact ih2 piece hmem
    | false =>
      constructor
      · intro c hc
        simp only [splitPiecesAux, hpa, Bool.false_eq_true, if_false] at hc
        rcases List.mem_cons.mp hc with rfl | hmem
        · exact hpa
        · exact ih1 c hmem
      · intro piece hpiece
        simp only [splitPiecesAux, hpa, Bool.false_eq_true, if_false] at hpiece
        exact ih2 piece hpiece

lemma splitHyphens_sep_free (name : String) :
    ∀ w ∈ splitHyphens name, ∀ c ∈ w.data, (c == '-') = false := by
  intro w hw c hc
  unfold splitHyphens splitPieces at hw
  obtain ⟨piece, hpiece, rfl⟩ := List.mem_map.mp hw
  rcases List.mem_cons.mp hpiece with rfl | hmem
  · exact (splitPiecesAux_sep_free _ name.data).1 c hc
  · exact (splitPiecesAux_sep_free _ name.data).2 piece hmem c hc

lemma splitHyphens_join (ws : List String) (hne : ws ≠ [])
    (hfree : ∀ w ∈ ws, ∀ c ∈ w.data, (c == '-') = false) :
    splitHyphens (joinWith "-" ws) = ws := by
  induction ws with
  | nil => cases hne rfl
  | cons w ws ih =>
    cases ws with
    | nil =>
      show splitHyphens w = [w]
      unfold splitHyphens
      rw [splitPieces_no_sep (hfree w (by simp))]
      simp [mk_data]
    | cons w' ws' =>
      have hjoin : joinWith "-" (w :: w' :: ws') =
          w ++ "-" ++ joinWith "-" (w' :: ws') := rfl
      unfold splitHyphens
      rw [hjoin, data_append, data_append]
      have hdash : ("-" : String).data = ['-'] := rfl
      rw [hdash, List.append_assoc, List.singleton_append]
      rw [splitPieces_append_sep rfl (hfree w (by simp))]
      simp only [List.map_cons, mk_data]
      congr 1
      exact ih (by simp) (fun v hv => hfree v (by simp [hv]))

lemma substituteWord_eq_none_iff (w : String) :
    substituteWord w = none ↔ special_cases.lookup w = some "" := by
  unfold substituteWord
  cases h : special_cases.lookup w with
  | none => simp
  | some v =>
    by_cases hv : v = "" <;> simp [hv]

lemma filterMap_substituteWord_filter (ws : List String) :
    (ws.filter fun w => !(special_cases.lookup w == some "")).filterMap
        substituteWord = ws.filterMap substituteWord := by
  induction ws with
  | nil => rfl
  | cons w ws ih =>
    by_cases hw : special_cases.lookup w = some ""
    · have hsub : substituteWord w = none := (substituteWord_eq_none_iff w).mpr hw
      have hfilter : ((w :: ws).filter fun v =>
          !(special_cases.lookup v == some "")) =
            ws.filter fun v => !(special_cases.lookup v == some "") := by
        simp [List.filter_cons, hw]
      rw [hfilter, ih, List.filterMap_cons, hsub]
    · have hne : (special_cases.lookup w == some "") = false := by simp [hw]
      have hfilter : ((w :: ws).filter fun v =>
          !(special_cases.lookup v == some "")) =
            w :: (ws.filter fun v => !(special_cases.lookup v == some "")) := by
        simp [List.filter_cons, hne]
      rw [hfilter, List.filterMap_cons, List.filterMap_cons, ih]

/-- **C9.**  A hyphen-split segment whose `special_cases` value is the empty
string is dropped entirely, at any position: removing all such segments from
the identifier before formatting does not change the display name, and the
result is the surviving words joined by single spaces — concretely, the base
name "arrow-circle-o-down" formats to "Arrow Circle Down". -/
theorem c9_empty_substitution_drop (name : String) :
    create_display_name name =
        create_display_name (dropEmptySubstSegments name) ∧
      create_display_name "arrow-circle-o-down" = "Arrow Circle Down" := by
  refine ⟨?_, rfl⟩
  unfold dropEmptySubstSegments
  by_cases hkept : ((splitHyphens name).filter fun w =>
      !(special_cases.lookup w == some "")) = []
  · rw [hkept]
    have hall : ∀ w ∈ splitHyphens name, substituteWord w = none := by
      intro w hw
      have h1 := List.filter_eq_nil_iff.mp hkept w hw
      have h2 : special_cases.lookup w = some "" := by simpa using h1
      exact (substituteWord_eq_none_iff w).mpr h2
    have hLHS : create_display_name name = "" := by
      unfold create_display_name processedWords
      rw [List.filterMap_eq_nil_iff.mpr hall]
      rfl
    rw [hLHS]
    rfl
  · have hfree : ∀ w ∈ ((splitHyphens name).filter fun w =>
        !(special_cases.lookup w == some "")), ∀ c ∈ w.data, (c == '-') = false :=
      fun w hw => splitHyphens_sep_free name w (List.mem_of_mem_filter hw)
    have hsplit := splitHyphens_join _ hkept hfree
    unfold create_display_name processedWords
    rw [hsplit, filterMap_substituteWord_filter]

end BuildIcons
